import Mathlib

/-!
Verification of the change-management decision core in src/lacrosse-logic.js:
the classifier, the risk scorer, the workflow resolver and the two static
policy tables they consult. Each definition below is a shallow embedding of
the corresponding JavaScript declaration; numbers are modelled as exact
rationals (all scores and thresholds in play are small rationals, far from
any double-rounding boundary).
-/

namespace Lacrosse

/-- Untyped JavaScript values, as far as the core needs them: the classifier
compares its arguments against the string literal "yes" with strict equality,
which is false whenever the value is not a string. -/
inductive JsValue where
  | str (s : String)
  | boolV (b : Bool)
  | numV (q : ℚ)
  | nullV
  | undef
deriving DecidableEq

/-- One risk dimension of the RISK_DIMENSIONS table. -/
structure RiskDimension where
  id : String
  label : String
  lowDesc : String
  highDesc : String
deriving DecidableEq

/-- The RISK_DIMENSIONS table: seven dimensions, fixed order. -/
def RISK_DIMENSIONS : List RiskDimension := [
  { id := "impact-scope", label := "Impact Scope",
    lowDesc := "1 = Single non-critical component",
    highDesc := "5 = Multiple critical business services" },
  { id := "complexity", label := "Complexity",
    lowDesc := "1 = Single config change",
    highDesc := "5 = Multi-system orchestrated deployment" },
  { id := "reversibility", label := "Reversibility",
    lowDesc := "1 = Instant automated rollback",
    highDesc := "5 = Irreversible (data migration, schema)" },
  { id := "testing-confidence", label := "Testing Confidence",
    lowDesc := "1 = Full automated test coverage",
    highDesc := "5 = No test environment available" },
  { id := "deployment-history", label := "Deployment History",
    lowDesc := "1 = Identical change succeeded 10×",
    highDesc := "5 = First-of-its-kind change" },
  { id := "timing-sensitivity", label := "Timing Sensitivity",
    lowDesc := "1 = Off-peak, low-traffic window",
    highDesc := "5 = Peak hours, month-end, launch day" },
  { id := "dependency-count", label := "Dependency Count",
    lowDesc := "1 = Zero external dependencies",
    highDesc := "5 = 5+ teams / external vendors involved" }
]

/-- The APPROVAL_WORKFLOWS object literal, embedded as an association list
from category key to the ordered step list, own keys only, source order. -/
def APPROVAL_WORKFLOWS : List (String × List String) := [
  ("Standard", [
    "Requester triggers pipeline",
    "Automated pre-checks (lint, test, scan)",
    "Auto-approved — change model match verified",
    "Deploy",
    "Automated validation",
    "Change record logged automatically"
  ]),
  ("Normal-Low", [
    "Requester submits RFC",
    "Automated risk scoring",
    "Peer review (1 reviewer, async)",
    "Approved → Scheduled in change calendar",
    "Deploy in approved window",
    "Validation",
    "Close RFC"
  ]),
  ("Normal-Medium", [
    "Requester submits RFC",
    "Automated risk scoring",
    "Technical review (architect or senior engineer)",
    "Change authority approval",
    "Scheduled in change calendar (with conflict check)",
    "Deploy with monitoring",
    "Validation + brief PIR",
    "Close RFC"
  ]),
  ("Normal-High", [
    "Requester submits RFC",
    "Automated risk scoring",
    "Technical review + security review",
    "Pre-CAB: documentation completeness check",
    "CAB review (weekly cadence or ad-hoc)",
    "Senior management sign-off",
    "Scheduled with communication plan",
    "Deploy with war-room / bridge call",
    "Validation + full PIR",
    "Close RFC"
  ]),
  ("Emergency", [
    "Incident declared",
    "Emergency RFC created (minimal fields)",
    "ECAB approval (phone/chat, 2 approvers minimum)",
    "Implement immediately",
    "Validate service restored",
    "Retrospective RFC completion (within 48 h)",
    "Mandatory PIR"
  ])
]

/-- classifyChange: the two-level decision tree. Each answer is compared with
the string literal "yes" by strict equality; serviceDown wins. -/
def classifyChange (serviceDown preApproved : JsValue) : String :=
  if serviceDown = JsValue.str "yes" then
    "Emergency"
  else if preApproved = JsValue.str "yes" then
    "Standard"
  else
    "Normal"

/-- The record returned by assessRisk: composite score and tier label. -/
structure RiskAssessment where
  score : ℚ
  tier : String
deriving DecidableEq

/-- assessRisk: left fold of addition over the scores starting from 0
(the reduce call), divided by the array length, then the tier ladder. -/
def assessRisk (scores : List ℚ) : RiskAssessment :=
  let sum := scores.foldl (fun acc val => acc + val) 0
  let score := sum / (scores.length : ℚ)
  let tier :=
    if score ≤ 2 then "Low"
    else if score ≤ 3.5 then "Medium"
    else "High"
  { score := score, tier := tier }

/-- JavaScript string interpolation of the riskTier argument into the
template literal: a null tier prints as the string "null". -/
def tierKeyPart : Option String → String
  | none => "null"
  | some t => t

/-- getApprovalPath: for the Normal category look up the concatenated key,
otherwise look up the category itself; a missed lookup falls back to the
empty list (the logical-or with the empty array). -/
def getApprovalPath (changeType : String) (riskTier : Option String) : List String :=
  if changeType = "Normal" then
    (APPROVAL_WORKFLOWS.lookup ("Normal-" ++ tierKeyPart riskTier)).getD []
  else
    (APPROVAL_WORKFLOWS.lookup changeType).getD []

/-- The members of Object.prototype, the prototype of the workflow object
literal: a property read on the object falls back to these when the key is
not an own key. Every one of them is a function or an object, hence truthy
under the logical-or. -/
def OBJECT_PROTOTYPE_MEMBERS : List String := [
  "constructor",
  "hasOwnProperty",
  "isPrototypeOf",
  "propertyIsEnumerable",
  "toLocaleString",
  "toString",
  "valueOf",
  "__proto__",
  "__defineGetter__",
  "__defineSetter__",
  "__lookupGetter__",
  "__lookupSetter__"
]

/-- The possible results of the property read on the workflow object: one of
the own step arrays, a member inherited from Object.prototype, or the
undefined value for a key found nowhere on the chain. -/
inductive JsProp where
  | arr (steps : List String)
  | protoMember (name : String)
  | undef
deriving DecidableEq

/-- JavaScript truthiness of such a result: arrays and inherited members
(functions or objects) are truthy; undefined is falsy. -/
def JsProp.truthy : JsProp → Bool
  | JsProp.arr _ => true
  | JsProp.protoMember _ => true
  | JsProp.undef => false

/-- The full semantics of the bracket property read on APPROVAL_WORKFLOWS:
an own key first, then the prototype chain (Object.prototype), else
undefined. -/
def workflowProp (key : String) : JsProp :=
  match APPROVAL_WORKFLOWS.lookup key with
  | some steps => JsProp.arr steps
  | none =>
    if key ∈ OBJECT_PROTOTYPE_MEMBERS then JsProp.protoMember key
    else JsProp.undef

/-- The logical-or with the empty array literal: a truthy left operand is
returned unchanged, a falsy one is replaced by the empty array. -/
def jsOrEmpty (v : JsProp) : JsProp :=
  if v.truthy then v else JsProp.arr []

/-- getApprovalPath again, now with full property-access semantics including
the prototype chain, so that reads of keys such as "toString" return the
inherited truthy member exactly as the source does. -/
def getApprovalPathJs (changeType : String) (riskTier : Option String) :
    JsProp :=
  if changeType = "Normal" then
    jsOrEmpty (workflowProp ("Normal-" ++ tierKeyPart riskTier))
  else
    jsOrEmpty (workflowProp changeType)

/-- The failure condition named by the specification for the resolver. -/
inductive ResolveError where
  | missingTier
deriving DecidableEq

/-- Spec-side model of the resolver contract of section 4.3, written from the
words of the specification (not from the source): with category Normal and a
null tier the call fails with MissingTier; otherwise the table is consulted
and a missed key yields the empty sequence. Used only to compare the code
against the documented MissingTier behaviour. -/
def resolvePathSpec (category : String) (tier : Option String) :
    Except ResolveError (List String) :=
  if category = "Normal" then
    match tier with
    | none => Except.error ResolveError.missingTier
    | some t => Except.ok ((APPROVAL_WORKFLOWS.lookup ("Normal-" ++ t)).getD [])
  else
    Except.ok ((APPROVAL_WORKFLOWS.lookup category).getD [])

/-- One invocation of a core function, used to model call histories. -/
inductive CoreCall where
  | classify (serviceDown preApproved : JsValue)
  | assess (scores : List ℚ)
  | resolve (changeType : String) (riskTier : Option String)

/-- The value returned by one core call. -/
inductive CoreResult where
  | category (c : String)
  | assessment (a : RiskAssessment)
  | path (steps : List String)
deriving DecidableEq

/-- Dispatch one call to the corresponding core function. -/
def runCall : CoreCall → CoreResult
  | CoreCall.classify s p => CoreResult.category (classifyChange s p)
  | CoreCall.assess scores => CoreResult.assessment (assessRisk scores)
  | CoreCall.resolve c t => CoreResult.path (getApprovalPath c t)

/-- Run a whole call history in order, collecting every result. -/
def runCalls (calls : List CoreCall) : List CoreResult :=
  calls.map runCall

lemma list_foldl_add (l : List ℚ) (a : ℚ) :
    l.foldl (fun acc val => acc + val) a = a + l.sum := by
  induction l generalizing a with
  | nil => simp
  | cons x xs ih => simp only [List.foldl_cons, List.sum_cons, ih]; ring

lemma assessRisk_score (scores : List ℚ) :
    (assessRisk scores).score = scores.sum / (scores.length : ℚ) := by
  simp [assessRisk, list_foldl_add]

lemma assessRisk_eq (scores : List ℚ) :
    assessRisk scores =
      { score := scores.sum / (scores.length : ℚ),
        tier :=
          if scores.sum / (scores.length : ℚ) ≤ 2 then "Low"
          else if scores.sum / (scores.length : ℚ) ≤ 3.5 then "Medium"
          else "High" } := by
  simp [assessRisk, list_foldl_add]

lemma assessRisk_tier_eq (scores : List ℚ) :
    (assessRisk scores).tier =
      if (assessRisk scores).score ≤ 2 then "Low"
      else if (assessRisk scores).score ≤ 3.5 then "Medium"
      else "High" := by
  simp only [assessRisk]

lemma list_sum_bounds (l : List ℤ) :
    (∀ x ∈ l, 1 ≤ x ∧ x ≤ 5) →
      (l.length : ℤ) ≤ l.sum ∧ l.sum ≤ 5 * l.length := by
  induction l with
  | nil => intro _; simp
  | cons x xs ih =>
    intro hb
    have hx := hb x (List.mem_cons_self x xs)
    have hxs := ih fun y hy => hb y (List.mem_cons_of_mem x hy)
    simp only [List.sum_cons, List.length_cons]
    push_cast
    constructor <;> linarith [hx.1, hx.2, hxs.1, hxs.2]

lemma list_sum_map_cast (l : List ℤ) :
    (l.map fun n : ℤ => (n : ℚ)).sum = (l.sum : ℚ) := by
  induction l with
  | nil => simp
  | cons x xs ih =>
    simp only [List.map_cons, List.sum_cons, ih]
    push_cast
    ring

lemma getApprovalPathJs_agrees (changeType : String) (riskTier : Option String)
    (hp : (if changeType = "Normal" then "Normal-" ++ tierKeyPart riskTier
      else changeType) ∉ OBJECT_PROTOTYPE_MEMBERS) :
    getApprovalPathJs changeType riskTier
      = JsProp.arr (getApprovalPath changeType riskTier) := by
  unfold getApprovalPathJs getApprovalPath workflowProp jsOrEmpty
  by_cases hc : changeType = "Normal"
  · rw [if_pos hc]
    rw [if_pos hc] at hp
    cases h : APPROVAL_WORKFLOWS.lookup ("Normal-" ++ tierKeyPart riskTier) with
    | none => simp [h, hp, hc, JsProp.truthy]
    | some steps => simp [h, hc, JsProp.truthy]
  · rw [if_neg hc]
    rw [if_neg hc] at hp
    cases h : APPROVAL_WORKFLOWS.lookup changeType with
    | none => simp [h, hp, hc, JsProp.truthy]
    | some steps => simp [h, hc, JsProp.truthy]

/-- C1 (counterexample): called with category Normal and a null tier, the
code does not surface the MissingTier failure the specification mandates: it
silently returns the empty step list (the interpolated key "Normal-null"
misses the table and the logical-or falls back to the empty array), while
the spec-side model of the contract fails with MissingTier. -/
theorem getApprovalPath_normal_null_no_error :
    getApprovalPath "Normal" none = [] ∧
    resolvePathSpec "Normal" none = Except.error ResolveError.missingTier ∧
    Except.ok (getApprovalPath "Normal" none) ≠ resolvePathSpec "Normal" none := by
  refine ⟨by decide, rfl, fun h => ?_⟩
  rw [show resolvePathSpec "Normal" none
      = Except.error ResolveError.missingTier from rfl] at h
  exact Except.noConfusion h

/-- C1 (amended): for a call with category Normal and a null tier, the
resolver raises no error and returns the empty step list: the lookup key is
the string "Normal-null", which is absent from the workflow table, so the
generic empty-list fallback applies. -/
theorem getApprovalPath_normal_null_empty :
    getApprovalPath "Normal" none = [] ∧
    (APPROVAL_WORKFLOWS.lookup "Normal-null") = none := by
  refine ⟨by decide, by decide⟩

/-- C3: classifyChange evaluates the fixed two-level tree in order: an
affirmative serviceDown (the exact string "yes") yields Emergency regardless
of preApproved; otherwise an affirmative preApproved yields Standard;
otherwise Normal. -/
theorem classifyChange_decision_tree (s p : JsValue) :
    (s = JsValue.str "yes" → classifyChange s p = "Emergency") ∧
    (s ≠ JsValue.str "yes" → p = JsValue.str "yes" →
      classifyChange s p = "Standard") ∧
    (s ≠ JsValue.str "yes" → p ≠ JsValue.str "yes" →
      classifyChange s p = "Normal") := by
  unfold classifyChange
  exact ⟨fun hs => by simp [hs], fun hs hp => by simp [hs, hp],
    fun hs hp => by simp [hs, hp]⟩

/-- C3 (witness): the tree evaluated at concrete answer pairs. -/
theorem classifyChange_decision_tree_witness :
    classifyChange (JsValue.str "yes") (JsValue.str "yes") = "Emergency" ∧
    classifyChange (JsValue.str "no") (JsValue.str "yes") = "Standard" ∧
    classifyChange (JsValue.str "no") (JsValue.str "no") = "Normal" :=
  ⟨(classifyChange_decision_tree (JsValue.str "yes") (JsValue.str "yes")).1 rfl,
   (classifyChange_decision_tree (JsValue.str "no") (JsValue.str "yes")).2.1
     (by decide) rfl,
   (classifyChange_decision_tree (JsValue.str "no") (JsValue.str "no")).2.2
     (by decide) (by decide)⟩

/-- C5 (counterexample): the key "toString" is absent from the workflow
table, yet the resolver does not return the empty step sequence for it: the
property read falls through to the prototype chain, finds the inherited
Object.prototype member — which is truthy — and returns it. -/
theorem getApprovalPath_toString_not_empty :
    APPROVAL_WORKFLOWS.lookup "toString" = none ∧
    getApprovalPathJs "toString" none = JsProp.protoMember "toString" ∧
    getApprovalPathJs "toString" none ≠ JsProp.arr [] := by
  refine ⟨by decide, by decide, by decide⟩

/-- C5 (amended): whenever the computed lookup key is absent from the
workflow table and does not name an inherited Object.prototype member, the
resolver returns the empty step sequence rather than raising an error; for
keys naming inherited members the truthy inherited value is returned
instead of the empty sequence. -/
theorem getApprovalPath_absent_nonproto_key_empty (changeType : String)
    (riskTier : Option String)
    (h : APPROVAL_WORKFLOWS.lookup
      (if changeType = "Normal" then "Normal-" ++ tierKeyPart riskTier
       else changeType) = none)
    (hp : (if changeType = "Normal" then "Normal-" ++ tierKeyPart riskTier
      else changeType) ∉ OBJECT_PROTOTYPE_MEMBERS) :
    getApprovalPathJs changeType riskTier = JsProp.arr [] ∧
    getApprovalPath changeType riskTier = [] := by
  have hempty : getApprovalPath changeType riskTier = [] := by
    unfold getApprovalPath
    by_cases hc : changeType = "Normal"
    · rw [if_pos hc]
      rw [if_pos hc] at h
      rw [h]
      rfl
    · rw [if_neg hc]
      rw [if_neg hc] at h
      rw [h]
      rfl
  exact ⟨by rw [getApprovalPathJs_agrees changeType riskTier hp, hempty],
    hempty⟩

/-- C5 (witness): an unrecognized category that is not a prototype member
yields the empty list under both the own-key model and the full
property-access model. -/
theorem getApprovalPath_absent_nonproto_key_empty_witness :
    getApprovalPathJs "Bogus" none = JsProp.arr [] ∧
    getApprovalPath "Bogus" none = [] :=
  getApprovalPath_absent_nonproto_key_empty "Bogus" none (by decide) (by decide)

/-- C6: each valid key returns its fixed step list verbatim and in order:
the Standard lookup returns the six Standard steps and the Normal lookup
with tier Medium returns the eight Normal-Medium steps. -/
theorem getApprovalPath_standard_and_normal_medium :
    getApprovalPath "Standard" none = [
      "Requester triggers pipeline",
      "Automated pre-checks (lint, test, scan)",
      "Auto-approved — change model match verified",
      "Deploy",
      "Automated validation",
      "Change record logged automatically"
    ] ∧
    (getApprovalPath "Standard" none).length = 6 ∧
    getApprovalPath "Normal" (some "Medium") = [
      "Requester submits RFC",
      "Automated risk scoring",
      "Technical review (architect or senior engineer)",
      "Change authority approval",
      "Scheduled in change calendar (with conflict check)",
      "Deploy with monitoring",
      "Validation + brief PIR",
      "Close RFC"
    ] ∧
    (getApprovalPath "Normal" (some "Medium")).length = 8 := by
  refine ⟨by decide, by decide, by decide, by decide⟩

/-- C7: for every tier value, including null, the Emergency lookup returns
exactly the seven fixed Emergency steps verbatim: the tier argument has no
effect on the result for a non-Normal category. -/
theorem getApprovalPath_emergency_ignores_tier (t : Option String) :
    getApprovalPath "Emergency" t = [
      "Incident declared",
      "Emergency RFC created (minimal fields)",
      "ECAB approval (phone/chat, 2 approvers minimum)",
      "Implement immediately",
      "Validate service restored",
      "Retrospective RFC completion (within 48 h)",
      "Mandatory PIR"
    ] ∧ (getApprovalPath "Emergency" t).length = 7 := by
  constructor <;> rfl

/-- C10: classifyChange is total over arbitrary values and always returns
one of the three category labels, and it returns Emergency exactly when
serviceDown is the exact string "yes": any other value, such as the strings
"Yes" or "YES", a boolean, or undefined, is treated as negative. -/
theorem classifyChange_total_and_strict_yes (s p : JsValue) :
    (classifyChange s p = "Standard" ∨ classifyChange s p = "Normal" ∨
      classifyChange s p = "Emergency") ∧
    (classifyChange s p = "Emergency" ↔ s = JsValue.str "yes") := by
  unfold classifyChange
  by_cases hs : s = JsValue.str "yes"
  · simp [hs]
  · by_cases hp : p = JsValue.str "yes" <;> simp [hs, hp]

/-- C10 (witness): concrete calls, including a capitalized "Yes" and an
undefined answer that do not produce Emergency. -/
theorem classifyChange_total_and_strict_yes_witness :
    (classifyChange (JsValue.str "yes") (JsValue.str "no") = "Emergency") ∧
    ¬ (classifyChange (JsValue.str "Yes") (JsValue.str "no") = "Emergency") ∧
    ¬ (classifyChange JsValue.undef (JsValue.str "no") = "Emergency") :=
  ⟨(classifyChange_total_and_strict_yes (JsValue.str "yes")
      (JsValue.str "no")).2.mpr rfl,
   fun h => by
     have := (classifyChange_total_and_strict_yes (JsValue.str "Yes")
       (JsValue.str "no")).2.mp h
     exact absurd this (by decide),
   fun h => by
     have := (classifyChange_total_and_strict_yes JsValue.undef
       (JsValue.str "no")).2.mp h
     exact absurd this (by decide)⟩

/-- C2: the tier assigned by assessRisk is given by closed, non-overlapping
intervals on the composite score: a score of at most 2.0 yields Low, a score
strictly above 2.0 and at most 3.5 yields Medium, and a score strictly above
3.5 yields High. -/
theorem assessRisk_tier_boundaries (scores : List ℚ) :
    ((assessRisk scores).score ≤ 2 → (assessRisk scores).tier = "Low") ∧
    (2 < (assessRisk scores).score ∧ (assessRisk scores).score ≤ 3.5 →
      (assessRisk scores).tier = "Medium") ∧
    (3.5 < (assessRisk scores).score → (assessRisk scores).tier = "High") := by
  refine ⟨fun h => ?_, fun h => ?_, fun h => ?_⟩
  · rw [assessRisk_tier_eq, if_pos h]
  · rw [assessRisk_tier_eq, if_neg (not_le.mpr h.1), if_pos h.2]
  · rw [assessRisk_tier_eq, if_neg (not_le.mpr (by linarith)),
      if_neg (not_le.mpr h)]

/-- C2 (witness): the boundaries exercised on concrete score vectors with
means 2.0 (Low, closed boundary), 3.5 (Medium, closed boundary) and above
3.5 (High). -/
theorem assessRisk_tier_boundaries_witness :
    (assessRisk [2,2,2,2,2,2,2]).tier = "Low" ∧
    (assessRisk [3,4,3,4,3,4,3.5]).tier = "Medium" ∧
    (assessRisk [4,4,4,4,4,4,4]).tier = "High" :=
  ⟨(assessRisk_tier_boundaries [2,2,2,2,2,2,2]).1
      (by rw [assessRisk_score]; norm_num),
   (assessRisk_tier_boundaries [3,4,3,4,3,4,3.5]).2.1
      ⟨by rw [assessRisk_score]; norm_num, by rw [assessRisk_score]; norm_num⟩,
   (assessRisk_tier_boundaries [4,4,4,4,4,4,4]).2.2
      (by rw [assessRisk_score]; norm_num)⟩

/-- C4: for a sequence of exactly 7 integers each in the range 1 to 5, the
composite score is the arithmetic mean of the sequence and always lies
between 1.0 and 5.0. -/
theorem assessRisk_mean_and_bounds (scores : List ℤ)
    (hlen : scores.length = 7) (hb : ∀ x ∈ scores, 1 ≤ x ∧ x ≤ 5) :
    (assessRisk (scores.map fun n : ℤ => (n : ℚ))).score
      = (scores.sum : ℚ) / 7 ∧
    1 ≤ (assessRisk (scores.map fun n : ℤ => (n : ℚ))).score ∧
    (assessRisk (scores.map fun n : ℤ => (n : ℚ))).score ≤ 5 := by
  have hsum := list_sum_bounds scores hb
  rw [hlen] at hsum
  have hlo : (7 : ℚ) ≤ (scores.sum : ℚ) := by exact_mod_cast hsum.1
  have hhi : (scores.sum : ℚ) ≤ 35 := by exact_mod_cast hsum.2
  have hs : (assessRisk (scores.map fun n : ℤ => (n : ℚ))).score
      = (scores.sum : ℚ) / 7 := by
    rw [assessRisk_score, list_sum_map_cast, List.length_map, hlen]
    norm_num
  refine ⟨hs, ?_, ?_⟩
  · rw [hs, le_div_iff₀ (by norm_num : (0 : ℚ) < 7)]
    linarith
  · rw [hs, div_le_iff₀ (by norm_num : (0 : ℚ) < 7)]
    linarith

/-- C4 (witness): the mean and its bounds at a concrete length-7 vector. -/
theorem assessRisk_mean_and_bounds_witness :
    (assessRisk (([1,2,3,4,5,1,2] : List ℤ).map fun n : ℤ => (n : ℚ))).score
      = ((([1,2,3,4,5,1,2] : List ℤ).sum : ℚ)) / 7 ∧
    1 ≤ (assessRisk
      (([1,2,3,4,5,1,2] : List ℤ).map fun n : ℤ => (n : ℚ))).score ∧
    (assessRisk
      (([1,2,3,4,5,1,2] : List ℤ).map fun n : ℤ => (n : ℚ))).score ≤ 5 :=
  assessRisk_mean_and_bounds [1,2,3,4,5,1,2] (by decide) (by decide)

/-- C8: end to end, all-ones scores give composite score 1.00, tier Low and
the seven Normal-Low steps; all-fives scores give composite score 5.00,
tier High and the ten Normal-High steps, feeding the computed tier into the
resolver in both cases. -/
theorem end_to_end_low_and_high :
    (assessRisk [1,1,1,1,1,1,1]).score = 1 ∧
    (assessRisk [1,1,1,1,1,1,1]).tier = "Low" ∧
    getApprovalPath "Normal" (some (assessRisk [1,1,1,1,1,1,1]).tier) = [
      "Requester submits RFC",
      "Automated risk scoring",
      "Peer review (1 reviewer, async)",
      "Approved → Scheduled in change calendar",
      "Deploy in approved window",
      "Validation",
      "Close RFC"
    ] ∧
    (getApprovalPath "Normal" (some (assessRisk [1,1,1,1,1,1,1]).tier)).length
      = 7 ∧
    (assessRisk [5,5,5,5,5,5,5]).score = 5 ∧
    (assessRisk [5,5,5,5,5,5,5]).tier = "High" ∧
    getApprovalPath "Normal" (some (assessRisk [5,5,5,5,5,5,5]).tier) = [
      "Requester submits RFC",
      "Automated risk scoring",
      "Technical review + security review",
      "Pre-CAB: documentation completeness check",
      "CAB review (weekly cadence or ad-hoc)",
      "Senior management sign-off",
      "Scheduled with communication plan",
      "Deploy with war-room / bridge call",
      "Validation + full PIR",
      "Close RFC"
    ] ∧
    (getApprovalPath "Normal" (some (assessRisk [5,5,5,5,5,5,5]).tier)).length
      = 10 := by
  have h1 : assessRisk [1,1,1,1,1,1,1] = { score := 1, tier := "Low" } := by
    rw [assessRisk_eq]
    norm_num
  have h5 : assessRisk [5,5,5,5,5,5,5] = { score := 5, tier := "High" } := by
    rw [assessRisk_eq]
    norm_num
  rw [h1, h5]
  refine ⟨rfl, rfl, by decide, by decide, rfl, rfl, by decide, by decide⟩

/-- C9: the three core functions are deterministic and stateless: the result
of any call is a pure function of its arguments, so it is the same after any
two call histories, and a call appends exactly its own result without
changing the results of earlier calls. -/
theorem core_functions_deterministic_stateless
    (pre1 pre2 : List CoreCall) (c : CoreCall) :
    (runCalls (pre1 ++ [c])).getLast? = (runCalls (pre2 ++ [c])).getLast? ∧
    runCalls (pre1 ++ [c]) = runCalls pre1 ++ [runCall c] ∧
    (∀ s p : JsValue, runCall (CoreCall.classify s p)
      = CoreResult.category (classifyChange s p)) ∧
    (∀ scores : List ℚ, runCall (CoreCall.assess scores)
      = CoreResult.assessment (assessRisk scores)) ∧
    (∀ (ct : String) (t : Option String), runCall (CoreCall.resolve ct t)
      = CoreResult.path (getApprovalPath ct t)) := by
  have key : ∀ l : List CoreCall,
      runCalls (l ++ [c]) = runCalls l ++ [runCall c] := by
    intro l
    simp [runCalls]
  refine ⟨?_, key pre1, fun s p => rfl, fun scores => rfl, fun ct t => rfl⟩
  rw [key pre1, key pre2]
  simp

end Lacrosse
